/-
Verification of the exptrack-frontend client against its specification.

The development shallowly embeds the TypeScript source of the repository:
  * `src/unnamed/part_001`  — SettingsService (currency/date formatting, budget settings)
  * `src/unnamed/part_002`  — TransactionService (data methods, response normalization)
  * `src/unnamed/part_007`  — category-budget status helpers
  * `src/unnamed/part_008`  — budget update / alert checking component methods
  * `src/src/app/app.ts`    — report export engine (CSV/HTML/Markdown/JSON/PDF)

JavaScript numbers are embedded as rationals (ℚ); machine strings as `String`;
nullable / possibly-missing values as `Option`; observables and promises as
one-shot `Except` outcomes.  Platform APIs (Intl.NumberFormat, Date rendering,
JSON.stringify) are modelled as explicit deterministic Lean functions, each
marked as a platform model in its doc comment.
-/
import Mathlib

namespace Exptrack

/-- Two-digit zero padding, platform model of `2-digit` date fields. -/
def pad2 (n : Nat) : String :=
  if n < 10 then "0" ++ toString n else toString n

/-- A run of `n` space characters (used by the JSON pretty-printer). -/
def spaces (n : Nat) : String :=
  String.mk (List.replicate n ' ')

/-- Platform model of JavaScript number-to-string conversion.  Integral
values print as their decimal representation; the exact shortest-roundtrip
rendering of non-integral doubles is a platform detail, modelled here as
`num/den`.  The model is a total deterministic function of its argument. -/
def jsNumToString (q : ℚ) : String :=
  if q.den = 1 then toString q.num
  else toString q.num ++ "/" ++ toString q.den

/-- Platform model of `Number.prototype.toFixed(1)`: round to one decimal
place, half away from zero. -/
def toFixed1 (q : ℚ) : String :=
  let n : Int := if 0 ≤ q then Rat.floor (q * 10 + 1/2) else -(Rat.floor (-q * 10 + 1/2))
  let a : Nat := n.natAbs
  (if n < 0 then "-" else "") ++ toString (a / 10) ++ "." ++ toString (a % 10)

/-- JSON string escaping, platform model of the escaping `JSON.stringify`
applies inside string values. -/
def jsonEscapeChar (c : Char) : String :=
  if c = '"' then "\\\""
  else if c = '\\' then "\\\\"
  else if c = '\n' then "\\n"
  else if c = '\t' then "\\t"
  else if c = '\r' then "\\r"
  else String.mk [c]

def jsonEscape (s : String) : String :=
  String.join (s.data.map jsonEscapeChar)

mutual
/-- JSON values, the shape of the `any` payloads handed to the export engine. -/
inductive Json : Type where
  | null : Json
  | bool (b : Bool) : Json
  | num (q : ℚ) : Json
  | str (s : String) : Json
  | arr (xs : List Json) : Json
  | obj (fs : List JsonField) : Json
  deriving Repr

inductive JsonField : Type where
  | mk (key : String) (val : Json) : JsonField
  deriving Repr
end

mutual
/-- Platform model of `JSON.stringify(v, null, 2)` at indentation `ind`. -/
def renderJson (ind : Nat) : Json → String
  | .null => "null"
  | .bool b => if b then "true" else "false"
  | .num q => jsNumToString q
  | .str s => "\"" ++ jsonEscape s ++ "\""
  | .arr [] => "[]"
  | .arr (x :: xs) =>
      "[\n" ++ spaces (ind + 2) ++ renderJson (ind + 2) x ++
        renderArrTail (ind + 2) xs ++ "\n" ++ spaces ind ++ "]"
  | .obj [] => "\x7b\x7d"
  | .obj (f :: fs) =>
      "\x7b\n" ++ spaces (ind + 2) ++ renderField (ind + 2) f ++
        renderObjTail (ind + 2) fs ++ "\n" ++ spaces ind ++ "\x7d"

def renderArrTail (ind : Nat) : List Json → String
  | [] => ""
  | x :: xs => ",\n" ++ spaces ind ++ renderJson ind x ++ renderArrTail ind xs

def renderField (ind : Nat) : JsonField → String
  | .mk k v => "\"" ++ jsonEscape k ++ "\": " ++ renderJson ind v

def renderObjTail (ind : Nat) : List JsonField → String
  | [] => ""
  | f :: fs => ",\n" ++ spaces ind ++ renderField ind f ++ renderObjTail ind fs
end

/-- `JSON.stringify(data, null, 2)` as used by the export engine. -/
def jsonStringify (j : Json) : String := renderJson 0 j

/-! ## SettingsService (`src/unnamed/part_001`) -/

/-- `AppSettings` interface of `part_001`. -/
structure AppSettings : Type where
  currency : String
  dateFormat : String
  startOfWeek : String
  defaultTransactionType : String
  enableNotifications : Bool
  budgetAlerts : Bool
  autoSync : Bool
  deriving Repr, DecidableEq

/-- `BudgetCategory` interface of `part_001`. -/
structure BudgetCategory : Type where
  name : String
  budget : ℚ
  spent : ℚ
  deriving Repr, DecidableEq

/-- `BudgetSettings` interface of `part_001`. -/
structure BudgetSettings : Type where
  monthlyBudget : ℚ
  enableBudgetAlerts : Bool
  alertThreshold : ℚ
  weeklyBudget : ℚ
  categories : List BudgetCategory
  deriving Repr, DecidableEq

/-- The `defaultAppSettings` literal of `part_001`. -/
def defaultAppSettings : AppSettings :=
  { currency := "USD", dateFormat := "MM/DD/YYYY", startOfWeek := "Monday",
    defaultTransactionType := "expense", enableNotifications := true,
    budgetAlerts := true, autoSync := true }

/-- The `defaultBudgetSettings` literal of `part_001`. -/
def defaultBudgetSettings : BudgetSettings :=
  { monthlyBudget := 3000, enableBudgetAlerts := true, alertThreshold := 80,
    weeklyBudget := 750, categories := [] }

/-- The `currencyLocales` table inside `SettingsService.formatCurrency`. -/
def currencyLocales : List (String × String) :=
  [("USD", "en-US"), ("EUR", "de-DE"), ("GBP", "en-GB"), ("JPY", "ja-JP"),
   ("CAD", "en-CA"), ("AUD", "en-AU"), ("INR", "en-IN"), ("CHF", "de-CH"),
   ("CNY", "zh-CN"), ("BRL", "pt-BR")]

/-- `currencyLocales[settings.currency] || 'en-US'` — the locale lookup with
its default-locale fallback. -/
def localeForCurrency (currency : String) : String :=
  ((currencyLocales.lookup currency).getD "en-US")

/-- ECMA-402 well-formedness of a currency code: exactly three ASCII
letters.  `Intl.NumberFormat` raises a RangeError exactly on codes that are
not well formed; on well-formed but unknown codes it formats with the code
itself as symbol. -/
def isWellFormedCurrencyCode (c : String) : Bool :=
  c.length = 3 && c.data.all (fun ch => ch.isAlpha)

/-- The `symbols` table inside `SettingsService.getCurrencySymbol`. -/
def currencySymbols : List (String × String) :=
  [("USD", "$"), ("EUR", "€"), ("GBP", "£"), ("JPY", "¥"), ("CAD", "C$"),
   ("AUD", "A$"), ("INR", "₹"), ("CHF", "CHF"), ("CNY", "¥"), ("BRL", "R$")]

/-- `SettingsService.getCurrencySymbol`: static table lookup defaulting to
the code itself. -/
def getCurrencySymbol (settings : AppSettings) : String :=
  (currencySymbols.lookup settings.currency).getD settings.currency

/-- Platform model of the string produced by
`new Intl.NumberFormat(locale, \x7bstyle: 'currency', currency\x7d).format(value)`
for a well-formed currency code: a deterministic rendering from the locale,
the code's symbol and the value.  The exact grouping/decimal conventions are
platform details. -/
def intlCurrencyRender (locale currency : String) (value : ℚ) : String :=
  (currencySymbols.lookup currency).getD currency ++ jsNumToString value ++
    " [" ++ locale ++ "]"

/-- Platform model of `Intl.NumberFormat(locale, ...).format(value)`:
`none` models the RangeError the constructor raises on a currency code that
is not well formed; otherwise the deterministic rendering. -/
def intlNumberFormat (locale currency : String) (value : ℚ) : Option String :=
  if isWellFormedCurrencyCode currency then
    some (intlCurrencyRender locale currency value)
  else none

/-- `SettingsService.formatCurrency` (`part_001` lines 197-220):
`const value = amount ?? 0`, locale lookup with `en-US` fallback, then the
Intl call.  `none` models a thrown RangeError. -/
def formatCurrency (settings : AppSettings) (amount : Option ℚ) : Option String :=
  let value := amount.getD 0
  let locale := localeForCurrency settings.currency
  intlNumberFormat locale settings.currency value

/-- Total variant of the Intl call used where the surrounding code runs with
an app-configurable (hence well-formed) currency code; used by the export
templates so they stay total string producers. -/
def formatCurrencyTotal (settings : AppSettings) (amount : ℚ) : String :=
  intlCurrencyRender (localeForCurrency settings.currency) settings.currency amount

/-- Short month names, platform model for `month: 'short'` (en-US). -/
def monthShort (m : Nat) : String :=
  (["Jan", "Feb", "Mar", "Apr", "May", "Jun", "Jul", "Aug", "Sep", "Oct",
    "Nov", "Dec"].get? (m - 1)).getD ""

/-- Platform model of `new Date(s)` for the ISO date strings this client
stores: parse a `YYYY-MM-DD` prefix into (year, month, day). -/
def parseIsoDate (s : String) : Option (Nat × Nat × Nat) :=
  match (s.take 10).splitOn "-" with
  | [y, m, d] =>
      match y.toNat?, m.toNat?, d.toNat? with
      | some yn, some mn, some dn => some (yn, mn, dn)
      | _, _, _ => none
  | _ => none

/-- `SettingsService.formatDate` (`part_001`): switch on the configured
date-format key; unknown keys fall back to the readable en-US default.  The
`toLocaleDateString` renderings are platform models of the en-US / en-GB
output for the given option bags; an unparseable date renders as JavaScript's
`Invalid Date`. -/
def formatDate (settings : AppSettings) (date : String) : String :=
  match parseIsoDate date with
  | none => "Invalid Date"
  | some (y, m, d) =>
      match settings.dateFormat with
      | "MM/DD/YYYY" => pad2 m ++ "/" ++ pad2 d ++ "/" ++ toString y
      | "DD/MM/YYYY" => pad2 d ++ "/" ++ pad2 m ++ "/" ++ toString y
      | "YYYY-MM-DD" => toString y ++ "-" ++ pad2 m ++ "-" ++ pad2 d
      | "DD-MMM-YYYY" => monthShort m ++ " " ++ pad2 d ++ ", " ++ toString y
      | _ => monthShort m ++ " " ++ toString d ++ ", " ++ toString y

/-- `SettingsService.shouldShowBudgetAlerts`. -/
def shouldShowBudgetAlerts (app : AppSettings) (budget : BudgetSettings) : Bool :=
  app.budgetAlerts && budget.enableBudgetAlerts

/-- The `currencies` list offered by the settings component
(`settings.component.ts` line 63): the codes a user can configure. -/
def settingsCurrencies : List String :=
  ["USD", "EUR", "GBP", "JPY", "CAD", "AUD", "INR"]

/-! ## TransactionService (`src/unnamed/part_002`) -/

/-- The client-side `Transaction` model rebuilt by `mapTransactions`.
Timestamps are kept as the ISO strings the dates were built from. -/
structure Transaction : Type where
  id : String
  amount : ℚ
  type : String
  category : String
  description : String
  createdAt : String
  updatedAt : String
  deriving Repr, DecidableEq

/-- A raw backend transaction record (`item: any`).  `none` in `amount`
models a missing or non-numeric value (`Number(item.amount)` is then `NaN`,
and `NaN || 0` is `0`; a present numeric value passes through, `0 || 0`
being `0` as well).  String fields are `none` when absent. -/
structure RawTransaction : Type where
  id : Option String
  amount : Option ℚ
  type : Option String
  category : Option String
  description : Option String
  createdAt : Option String
  updatedAt : Option String
  deriving Repr, DecidableEq

/-- `normalizeTransactionType` (`part_002` lines 770-774).  A missing or
empty string is falsy (`!type`); otherwise lower-case and trim, and keep the
value only when it is exactly `expense` or `revenue`. -/
def normalizeTransactionType (type? : Option String) : String :=
  match type? with
  | none => "expense"
  | some t =>
      if t = "" then "expense"
      else
        let normalized := t.toLower.trim
        if normalized = "expense" ∨ normalized = "revenue" then normalized
        else "expense"

/-- JavaScript `x || fallback` on strings: empty string is falsy. -/
def strOr (s? : Option String) (fallback : String) : String :=
  match s? with
  | none => fallback
  | some s => if s = "" then fallback else s

/-- The per-record body of `mapTransactions` (`part_002` lines 731-743).
`now` is the ISO date string of `new Date()` taken when a timestamp is
missing. -/
def mapTransaction (now : String) (item : RawTransaction) : Transaction :=
  { id := (item.id).getD ""
    amount := (item.amount).getD 0
    type := normalizeTransactionType item.type
    category := strOr item.category "Uncategorized"
    description := (item.description).getD ""
    createdAt := strOr item.createdAt now
    updatedAt := strOr item.updatedAt now }

/-- `mapTransactions`: `null`/non-array data (`none`) maps to `[]`,
otherwise each record is rebuilt field by field. -/
def mapTransactions (data : Option (List RawTransaction)) (now : String) :
    List Transaction :=
  match data with
  | none => []
  | some items => items.map (mapTransaction now)

/-- `TransactionSummary` interface. -/
structure TransactionSummary : Type where
  totalExpenses : ℚ
  totalRevenue : ℚ
  expenseCount : ℚ
  revenueCount : ℚ
  netAmount : ℚ
  period : String
  currency : String
  deriving Repr, DecidableEq

/-- `getEmptySummary` (`part_002`). -/
def getEmptySummary (timeFrame : String) : TransactionSummary :=
  { totalExpenses := 0, totalRevenue := 0, expenseCount := 0,
    revenueCount := 0, netAmount := 0, period := timeFrame, currency := "TND" }

/-- `CategoryStatsResponse` summary block. -/
structure CategoryStatsSummary : Type where
  totalExpenses : ℚ
  totalRevenue : ℚ
  averageTransaction : ℚ
  mostSpentCategory : String
  mostRevenueCategory : String
  deriving Repr, DecidableEq

/-- `CategorySummary` record produced by `mapCategories`. -/
structure CategorySummary : Type where
  name : String
  amount : ℚ
  type : String
  percentage : ℚ
  deriving Repr, DecidableEq

/-- `CategoryStatsResponse`. -/
structure CategoryStatsResponse : Type where
  expenseCategories : List CategorySummary
  revenueCategories : List CategorySummary
  timeFrame : String
  summary : CategoryStatsSummary
  deriving Repr, DecidableEq

/-- `getEmptyCategoryStats` (`part_002`). -/
def getEmptyCategoryStats (timeFrame : String) : CategoryStatsResponse :=
  { expenseCategories := [], revenueCategories := [], timeFrame := timeFrame,
    summary := { totalExpenses := 0, totalRevenue := 0, averageTransaction := 0,
                 mostSpentCategory := "", mostRevenueCategory := "" } }

/-- JavaScript falsiness of the resolved user id (`if (!userId)`): absent or
empty string. -/
def userIdFalsy (userId : Option String) : Bool :=
  match userId with
  | none => true
  | some u => u = ""

/-- `getTransactions` (`part_002` lines 129-165): no user id resolves to
`of([])`; otherwise the backend response is mapped, and any HTTP error is
caught and replaced by `of([])`. -/
def getTransactions (userId : Option String)
    (resp : Except String (Option (List RawTransaction))) (now : String) :
    Except String (List Transaction) :=
  if userIdFalsy userId then .ok []
  else
    match resp with
    | .ok data => .ok (mapTransactions data now)
    | .error _ => .ok []

/-- `getTransactionSummary`: no user id resolves to the empty summary;
errors are caught and replaced by the empty summary. -/
def getTransactionSummary (userId : Option String) (timeFrame : String)
    (resp : Except String TransactionSummary) :
    Except String TransactionSummary :=
  if userIdFalsy userId then .ok (getEmptySummary timeFrame)
  else
    match resp with
    | .ok s => .ok s
    | .error _ => .ok (getEmptySummary timeFrame)

/-- `getCategorySummary`: no user id resolves to `of([])`. -/
def getCategorySummary (userId : Option String)
    (resp : Except String (List CategorySummary)) :
    Except String (List CategorySummary) :=
  if userIdFalsy userId then .ok []
  else
    match resp with
    | .ok cs => .ok cs
    | .error _ => .ok []

/-- `getCategoryStats`: no user id resolves to the empty stats response. -/
def getCategoryStats (userId : Option String) (timeFrame : String)
    (resp : Except String CategoryStatsResponse) :
    Except String CategoryStatsResponse :=
  if userIdFalsy userId then .ok (getEmptyCategoryStats timeFrame)
  else
    match resp with
    | .ok r => .ok r
    | .error _ => .ok (getEmptyCategoryStats timeFrame)

/-- `getRecentTransactions`: no user id resolves to `of([])`. -/
def getRecentTransactions (userId : Option String)
    (resp : Except String (Option (List RawTransaction))) (now : String) :
    Except String (List Transaction) :=
  if userIdFalsy userId then .ok []
  else
    match resp with
    | .ok data => .ok (mapTransactions data now)
    | .error _ => .ok []

/-- `getExpenses`: no user id resolves to `of([])`. -/
def getExpenses (userId : Option String)
    (resp : Except String (Option (List RawTransaction))) (now : String) :
    Except String (List Transaction) :=
  if userIdFalsy userId then .ok []
  else
    match resp with
    | .ok data => .ok (mapTransactions data now)
    | .error _ => .ok []

/-- `getRevenues`: no user id resolves to `of([])`. -/
def getRevenues (userId : Option String)
    (resp : Except String (Option (List RawTransaction))) (now : String) :
    Except String (List Transaction) :=
  if userIdFalsy userId then .ok []
  else
    match resp with
    | .ok data => .ok (mapTransactions data now)
    | .error _ => .ok []

/-- `addTransaction` (`part_002` lines 260-277): no user id rejects with
`User not authenticated`; backend errors are rethrown. -/
def addTransaction (userId : Option String)
    (resp : Except String Transaction) : Except String Transaction :=
  if userIdFalsy userId then .error "User not authenticated"
  else resp

/-- `updateTransaction`: no user id rejects with `User not authenticated`. -/
def updateTransaction (userId : Option String)
    (resp : Except String Transaction) : Except String Transaction :=
  if userIdFalsy userId then .error "User not authenticated"
  else resp

/-- `deleteTransaction` (`part_002` lines 299-316): no user id rejects with
`User not authenticated`. -/
def deleteTransaction (userId : Option String)
    (resp : Except String Unit) : Except String Unit :=
  if userIdFalsy userId then .error "User not authenticated"
  else resp

/-! ## Budget tracking (`src/unnamed/part_007`, `src/unnamed/part_008`) -/

/-- `updateBudgetCategorySpent` (`part_008` lines 290-314): non-expense
transactions are ignored; the first category whose name matches the
transaction's category case-insensitively has its `spent` decreased —
clamped at 0 — on delete, or increased on add; no matching category leaves
the list unchanged. -/
def updateBudgetCategorySpent (cats : List BudgetCategory)
    (transaction : Transaction) (isDelete : Bool) : List BudgetCategory :=
  if transaction.type ≠ "expense" then cats
  else
    match cats.findIdx? (fun c => c.name.toLower = transaction.category.toLower) with
    | none => cats
    | some i =>
        match cats.get? i with
        | none => cats
        | some category =>
            cats.set i
              { category with
                spent :=
                  if isDelete then max 0 (category.spent - transaction.amount)
                  else category.spent + transaction.amount }

/-- One step of the transaction history driving `updateBudgetCategorySpent`:
the transaction together with the `isDelete` flag of the call. -/
def applyBudgetEvents (cats : List BudgetCategory)
    (events : List (Transaction × Bool)) : List BudgetCategory :=
  events.foldl (fun acc e => updateBudgetCategorySpent acc e.1 e.2) cats

/-- The monthly expense total of `checkBudgetAfterTransaction`
(`part_008`): sum of the amounts of expense transactions created in the
current month.  The calendar test `new Date(t.createdAt) >= startOfMonth` is
a platform date comparison, abstracted as the predicate `inCurrentMonth` on
the stored timestamp. -/
def monthlyExpenseTotal (transactions : List Transaction)
    (inCurrentMonth : String → Bool) : ℚ :=
  ((transactions.filter
      (fun t => t.type = "expense" && inCurrentMonth t.createdAt)).map
    (fun t => t.amount)).sum

/-- The two banner severities of `showBudgetAlertBanner`. -/
inductive BannerKind : Type where
  | warning : BannerKind
  | danger : BannerKind
  deriving Repr, DecidableEq

/-- The monthly-budget classification of `checkBudgetAfterTransaction`
(`part_008` lines 319-423): with alerts enabled, spend at or above the
monthly budget raises the danger banner; otherwise usage
`monthExpenses / monthlyBudget * 100` at or above the alert threshold raises
the warning banner; otherwise no banner.  (The subsequent per-category
banner loop follows the same classification, embedded separately as
`getCategoryBudgetStatus`.) -/
def checkBudgetAfterTransaction (alertsEnabled : Bool)
    (budgetSettings : BudgetSettings) (transactions : List Transaction)
    (inCurrentMonth : String → Bool) : Option BannerKind :=
  if alertsEnabled = false then none
  else
    let monthExpenses := monthlyExpenseTotal transactions inCurrentMonth
    if budgetSettings.monthlyBudget ≤ monthExpenses then some .danger
    else if budgetSettings.alertThreshold ≤
        monthExpenses / budgetSettings.monthlyBudget * 100 then some .warning
    else none

/-- `getCategoryBudget` (`part_007`): 0 when no budget settings or no
matching category. -/
def getCategoryBudget (budgetSettings : Option BudgetSettings)
    (categoryName : String) : ℚ :=
  match budgetSettings with
  | none => 0
  | some bs =>
      (((bs.categories.find? (fun c => c.name.toLower = categoryName.toLower)).map
        (fun c => c.budget)).getD 0)

/-- `getCategorySpent` (`part_007`). -/
def getCategorySpent (budgetSettings : Option BudgetSettings)
    (categoryName : String) : ℚ :=
  match budgetSettings with
  | none => 0
  | some bs =>
      (((bs.categories.find? (fun c => c.name.toLower = categoryName.toLower)).map
        (fun c => c.spent)).getD 0)

/-- `getCategoryBudgetUtilization` (`part_007`): percentage of the category
budget spent, 0 when the budget is not positive. -/
def getCategoryBudgetUtilization (budgetSettings : Option BudgetSettings)
    (categoryName : String) : ℚ :=
  let budget := getCategoryBudget budgetSettings categoryName
  let spent := getCategorySpent budgetSettings categoryName
  if budget ≤ 0 then 0 else spent / budget * 100

/-- `getCategoryBudgetStatus` (`part_007` lines 270-277): utilization ≥ 100
is `danger`, else ≥ alert threshold (`|| 80` when falsy) is `warning`, else
`safe`. -/
def getCategoryBudgetStatus (budgetSettings : Option BudgetSettings)
    (categoryName : String) : String :=
  let utilization := getCategoryBudgetUtilization budgetSettings categoryName
  let alertThreshold :=
    match budgetSettings with
    | none => (80 : ℚ)
    | some bs => if bs.alertThreshold = 0 then 80 else bs.alertThreshold
  if 100 ≤ utilization then "danger"
  else if alertThreshold ≤ utilization then "warning"
  else "safe"

/-! ## Report payloads (`src/src/app/app.ts`, `exportTrendReport` /
`exportCustomReport`) -/

/-- One `trendAnalysis` data point. -/
structure TrendItem : Type where
  period : String
  totalAmount : ℚ
  percentageChange : ℚ
  trend : String
  deriving Repr, DecidableEq

/-- The `summary` block assembled by `exportTrendReport`. -/
structure TrendSummary : Type where
  overallTrend : String
  averageChange : ℚ
  forecast : ℚ
  deriving Repr, DecidableEq

/-- The trend-report payload assembled by `exportTrendReport`
(`reportType: 'Trend Analysis'`). -/
structure TrendReport : Type where
  period : String
  data : List TrendItem
  summary : TrendSummary
  currency : String
  generatedAt : String
  settingsCurrency : String
  settingsDateFormat : String
  deriving Repr, DecidableEq

/-- One expense/revenue line of the custom report (`detailedData` items);
the export paths read its `date`, `category`, `description` and `amount`. -/
structure CustomItem : Type where
  date : String
  category : String
  description : String
  amount : ℚ
  deriving Repr, DecidableEq

/-- `customReportData.summary`. -/
structure CustomSummary : Type where
  totalExpenses : ℚ
  totalRevenues : ℚ
  netIncome : ℚ
  period : String
  deriving Repr, DecidableEq

/-- The custom-report payload assembled by `exportCustomReport`
(`reportType: 'Custom Report'`). -/
structure CustomReport : Type where
  period : String
  expenses : List CustomItem
  revenues : List CustomItem
  summary : CustomSummary
  currency : String
  generatedAt : String
  settingsCurrency : String
  settingsDateFormat : String
  deriving Repr, DecidableEq

/-- The duck-typed `data: any` handed to `exportDataInFormat`: the branch on
`data.reportType === 'Trend Analysis'` becomes the constructor tag. -/
inductive ReportPayload : Type where
  | trend (t : TrendReport) : ReportPayload
  | custom (c : CustomReport) : ReportPayload
  deriving Repr, DecidableEq

/-- `getTrendIcon` (`app.ts`): icon table with `📊` fallback. -/
def getTrendIcon (trend : String) : String :=
  ((([("up", "📈"), ("down", "📉"), ("stable", "➡️")] :
      List (String × String)).lookup trend).getD "📊")

/-- Platform model of `new Date(s).toLocaleString()`: a deterministic
rendering of the stored ISO timestamp; the exact locale output is a platform
detail, modelled as the string itself. -/
def jsDateToLocaleString (s : String) : String := s

/-! ## `convertToCSV` (`app.ts` lines 1445-1462) -/

/-- One data row of the trend CSV. -/
def trendCsvRow (currency : String) (item : TrendItem) : String :=
  item.period ++ "," ++ jsNumToString item.totalAmount ++ "," ++
    jsNumToString item.percentageChange ++ "," ++ item.trend ++ "," ++
    currency ++ "\n"

/-- One data row of the custom CSV; only the description is wrapped in
quotes, no other escaping is performed. -/
def customCsvRow (label currency : String) (item : CustomItem) : String :=
  label ++ "," ++ item.date ++ "," ++ item.category ++ ",\"" ++
    item.description ++ "\"," ++ jsNumToString item.amount ++ "," ++
    currency ++ "\n"

/-- `convertToCSV`: fixed header per report kind, then one appended row per
data point (expenses first, then revenues, for the custom report). -/
def convertToCSV : ReportPayload → String
  | .trend t =>
      "Period,Amount,Change (%),Trend,Currency\n" ++
        String.join (t.data.map (trendCsvRow t.currency))
  | .custom c =>
      "Type,Date,Category,Description,Amount,Currency\n" ++
        String.join (c.expenses.map (customCsvRow "Expense" c.currency)) ++
        String.join (c.revenues.map (customCsvRow "Revenue" c.currency))

/-! ## `convertToHTML` (`app.ts` lines 1464-1626)

The fixed `style` block and both page templates, reproduced textually (CSS
braces written with their character codes). -/

def htmlStyle : String :=
  "\n      <style>\n" ++
  "        body \x7b font-family: Arial, sans-serif; margin: 40px; background: #f5f5f5; \x7d\n" ++
  "        .container \x7b max-width: 1200px; margin: 0 auto; background: white; padding: 40px; border-radius: 8px; box-shadow: 0 2px 8px rgba(0,0,0,0.1); \x7d\n" ++
  "        h1 \x7b color: #667eea; margin-bottom: 8px; \x7d\n" ++
  "        .meta \x7b color: #666; margin-bottom: 32px; \x7d\n" ++
  "        .summary \x7b display: grid; grid-template-columns: repeat(auto-fit, minmax(200px, 1fr)); gap: 16px; margin-bottom: 32px; \x7d\n" ++
  "        .stat \x7b background: #f8f9fa; padding: 20px; border-radius: 8px; border-left: 4px solid #667eea; \x7d\n" ++
  "        .stat-label \x7b font-size: 12px; color: #666; text-transform: uppercase; margin-bottom: 8px; \x7d\n" ++
  "        .stat-value \x7b font-size: 24px; font-weight: bold; color: #333; \x7d\n" ++
  "        table \x7b width: 100%; border-collapse: collapse; margin-top: 24px; \x7d\n" ++
  "        th \x7b background: #667eea; color: white; padding: 12px; text-align: left; \x7d\n" ++
  "        td \x7b padding: 12px; border-bottom: 1px solid #e0e0e0; \x7d\n" ++
  "        tr:hover \x7b background: #f8f9fa; \x7d\n" ++
  "        .positive \x7b color: #10b981; font-weight: bold; \x7d\n" ++
  "        .negative \x7b color: #ef4444; font-weight: bold; \x7d\n" ++
  "        .report-info \x7b background: #f0f9ff; padding: 16px; border-radius: 8px; margin-bottom: 24px; border-left: 4px solid #0ea5e9; \x7d\n" ++
  "        .currency-info \x7b font-size: 12px; color: #666; font-style: italic; \x7d\n" ++
  "      </style>\n    "

/-- One `<tr>` of the trend HTML table. -/
def trendHtmlRow (settings : AppSettings) (item : TrendItem) : String :=
  "\n                  <tr>\n" ++
  "                    <td>" ++ item.period ++ "</td>\n" ++
  "                    <td>" ++ formatCurrencyTotal settings item.totalAmount ++ "</td>\n" ++
  "                    <td class=\"" ++
    (if 0 ≤ item.percentageChange then "positive" else "negative") ++ "\">\n" ++
  "                      " ++ (if 0 < item.percentageChange then "+" else "") ++
    toFixed1 item.percentageChange ++ "%\n" ++
  "                    </td>\n" ++
  "                    <td>" ++ getTrendIcon item.trend ++ " " ++ item.trend ++
    "</td>\n" ++
  "                  </tr>\n                "

/-- One `<tr>` of a custom-report HTML table; `cls` is `positive` for
revenues and `negative` for expenses. -/
def customHtmlRow (settings : AppSettings) (cls : String) (item : CustomItem) :
    String :=
  "\n                  <tr>\n" ++
  "                    <td>" ++ formatDate settings item.date ++ "</td>\n" ++
  "                    <td>" ++ item.category ++ "</td>\n" ++
  "                    <td>" ++ item.description ++ "</td>\n" ++
  "                    <td class=\"" ++ cls ++ "\">" ++
    formatCurrencyTotal settings item.amount ++ "</td>\n" ++
  "                  </tr>\n                "

/-- `convertToHTML`: a fixed textual template per report kind embedding
summary statistics and the full data table.  The component's
`formatCurrency` / `formatDate` / `getCurrencySymbol` delegate to the
settings service, so the template is a function of the settings and the
payload only. -/
def convertToHTML (settings : AppSettings) : ReportPayload → String
  | .trend data =>
      "\n        <!DOCTYPE html>\n        <html>\n        <head>\n" ++
      "          <meta charset=\"UTF-8\">\n" ++
      "          <title>Trend Analysis Report</title>\n          " ++
      htmlStyle ++ "\n        </head>\n        <body>\n" ++
      "          <div class=\"container\">\n" ++
      "            <h1>📈 Trend Analysis Report</h1>\n" ++
      "            <div class=\"meta\">\n" ++
      "              Period: " ++ data.period ++ " | Generated: " ++
        jsDateToLocaleString data.generatedAt ++ "\n" ++
      "              <div class=\"currency-info\">Currency: " ++ data.currency ++
        " (" ++ getCurrencySymbol settings ++ ")</div>\n" ++
      "            </div>\n\n            <div class=\"summary\">\n" ++
      "              <div class=\"stat\">\n" ++
      "                <div class=\"stat-label\">Overall Trend</div>\n" ++
      "                <div class=\"stat-value\">" ++
        getTrendIcon data.summary.overallTrend ++ " " ++
        data.summary.overallTrend ++ "</div>\n" ++
      "              </div>\n              <div class=\"stat\">\n" ++
      "                <div class=\"stat-label\">Average Change</div>\n" ++
      "                <div class=\"stat-value\">" ++
        toFixed1 data.summary.averageChange ++ "%</div>\n" ++
      "              </div>\n              <div class=\"stat\">\n" ++
      "                <div class=\"stat-label\">Forecast</div>\n" ++
      "                <div class=\"stat-value\">" ++
        formatCurrencyTotal settings data.summary.forecast ++ "</div>\n" ++
      "              </div>\n            </div>\n\n            <table>\n" ++
      "              <thead>\n                <tr>\n" ++
      "                  <th>Period</th>\n                  <th>Amount</th>\n" ++
      "                  <th>Change</th>\n                  <th>Trend</th>\n" ++
      "                </tr>\n              </thead>\n              <tbody>\n" ++
      "                " ++
        String.join (data.data.map (trendHtmlRow settings)) ++ "\n" ++
      "              </tbody>\n            </table>\n          </div>\n" ++
      "        </body>\n        </html>\n      "
  | .custom data =>
      "\n        <!DOCTYPE html>\n        <html>\n        <head>\n" ++
      "          <meta charset=\"UTF-8\">\n" ++
      "          <title>Custom Financial Report</title>\n          " ++
      htmlStyle ++ "\n        </head>\n        <body>\n" ++
      "          <div class=\"container\">\n" ++
      "            <h1>📋 Custom Financial Report</h1>\n" ++
      "            <div class=\"meta\">\n" ++
      "              Period: " ++ data.summary.period ++ " | Generated: " ++
        jsDateToLocaleString data.generatedAt ++ "\n" ++
      "              <div class=\"currency-info\">Currency: " ++ data.currency ++
        " (" ++ getCurrencySymbol settings ++ ")</div>\n" ++
      "            </div>\n\n            <div class=\"summary\">\n" ++
      "              <div class=\"stat\">\n" ++
      "                <div class=\"stat-label\">Total Revenues</div>\n" ++
      "                <div class=\"stat-value positive\">" ++
        formatCurrencyTotal settings data.summary.totalRevenues ++ "</div>\n" ++
      "              </div>\n              <div class=\"stat\">\n" ++
      "                <div class=\"stat-label\">Total Expenses</div>\n" ++
      "                <div class=\"stat-value negative\">" ++
        formatCurrencyTotal settings data.summary.totalExpenses ++ "</div>\n" ++
      "              </div>\n              <div class=\"stat\">\n" ++
      "                <div class=\"stat-label\">Net Income</div>\n" ++
      "                <div class=\"stat-value " ++
        (if 0 ≤ data.summary.netIncome then "positive" else "negative") ++
        "\">\n                  " ++
        formatCurrencyTotal settings data.summary.netIncome ++
        "\n                </div>\n" ++
      "              </div>\n            </div>\n\n" ++
      "            <h2>💰 Revenues</h2>\n            <table>\n" ++
      "              <thead>\n                <tr>\n" ++
      "                  <th>Date</th>\n                  <th>Category</th>\n" ++
      "                  <th>Description</th>\n                  <th>Amount</th>\n" ++
      "                </tr>\n              </thead>\n              <tbody>\n" ++
      "                " ++
        String.join (data.revenues.map (customHtmlRow settings "positive")) ++
        "\n" ++
      "              </tbody>\n            </table>\n\n" ++
      "            <h2>💸 Expenses</h2>\n            <table>\n" ++
      "              <thead>\n                <tr>\n" ++
      "                  <th>Date</th>\n                  <th>Category</th>\n" ++
      "                  <th>Description</th>\n                  <th>Amount</th>\n" ++
      "                </tr>\n              </thead>\n              <tbody>\n" ++
      "                " ++
        String.join (data.expenses.map (customHtmlRow settings "negative")) ++
        "\n" ++
      "              </tbody>\n            </table>\n          </div>\n" ++
      "        </body>\n        </html>\n      "

/-! ## `convertToMarkdown` (`app.ts` lines 1628-1668) -/

/-- One row of the trend Markdown table. -/
def trendMdRow (settings : AppSettings) (item : TrendItem) : String :=
  "| " ++ item.period ++ " | " ++ formatCurrencyTotal settings item.totalAmount ++
    " | " ++ (if 0 < item.percentageChange then "+" else "") ++
    toFixed1 item.percentageChange ++ "% | " ++ getTrendIcon item.trend ++
    " " ++ item.trend ++ " |\n"

/-- One row of a custom-report Markdown table. -/
def customMdRow (settings : AppSettings) (item : CustomItem) : String :=
  "| " ++ formatDate settings item.date ++ " | " ++ item.category ++ " | " ++
    item.description ++ " | " ++ formatCurrencyTotal settings item.amount ++
    " |\n"

/-- `convertToMarkdown`: fixed Markdown template per report kind. -/
def convertToMarkdown (settings : AppSettings) : ReportPayload → String
  | .trend data =>
      "# 📈 Trend Analysis Report\n\n" ++
      "**Period:** " ++ data.period ++ "  \n" ++
      "**Generated:** " ++ jsDateToLocaleString data.generatedAt ++ "  \n" ++
      "**Currency:** " ++ data.currency ++ " (" ++ getCurrencySymbol settings ++
        ")\n\n" ++
      "## Summary\n\n" ++
      "- **Overall Trend:** " ++ getTrendIcon data.summary.overallTrend ++ " " ++
        data.summary.overallTrend ++ "\n" ++
      "- **Average Change:** " ++ toFixed1 data.summary.averageChange ++ "%\n" ++
      "- **Forecast:** " ++ formatCurrencyTotal settings data.summary.forecast ++
        "\n\n" ++
      "## Detailed Analysis\n\n" ++
      "| Period | Amount | Change | Trend |\n" ++
      "|--------|--------|--------|-------|\n" ++
      String.join (data.data.map (trendMdRow settings))
  | .custom data =>
      "# 📋 Custom Financial Report\n\n" ++
      "**Period:** " ++ data.summary.period ++ "  \n" ++
      "**Generated:** " ++ jsDateToLocaleString data.generatedAt ++ "  \n" ++
      "**Currency:** " ++ data.currency ++ " (" ++ getCurrencySymbol settings ++
        ")\n\n" ++
      "## Summary\n\n" ++
      "- **Total Revenues:** " ++
        formatCurrencyTotal settings data.summary.totalRevenues ++ "\n" ++
      "- **Total Expenses:** " ++
        formatCurrencyTotal settings data.summary.totalExpenses ++ "\n" ++
      "- **Net Income:** " ++
        formatCurrencyTotal settings data.summary.netIncome ++ "\n\n" ++
      "## 💰 Revenues\n\n" ++
      "| Date | Category | Description | Amount |\n" ++
      "|------|----------|-------------|--------|\n" ++
      String.join (data.revenues.map (customMdRow settings)) ++
      "\n## 💸 Expenses\n\n" ++
      "| Date | Category | Description | Amount |\n" ++
      "|------|----------|-------------|--------|\n" ++
      String.join (data.expenses.map (customMdRow settings))

/-! ## `exportDataInFormat` (`app.ts` lines 1391-1443) -/

/-- The JSON value of one custom-report item, in the field order the
payload objects carry. -/
def jsonOfCustomItem (item : CustomItem) : Json :=
  .obj [.mk "date" (.str item.date), .mk "category" (.str item.category),
        .mk "description" (.str item.description),
        .mk "amount" (.num item.amount)]

/-- The JSON value of one trend data point. -/
def jsonOfTrendItem (item : TrendItem) : Json :=
  .obj [.mk "period" (.str item.period),
        .mk "totalAmount" (.num item.totalAmount),
        .mk "percentageChange" (.num item.percentageChange),
        .mk "trend" (.str item.trend)]

/-- The JSON object underlying a report payload, with the key order of the
object literals in `exportTrendReport` / `exportCustomReport`. -/
def jsonOfPayload : ReportPayload → Json
  | .trend t =>
      .obj [.mk "reportType" (.str "Trend Analysis"),
            .mk "period" (.str t.period),
            .mk "data" (.arr (t.data.map jsonOfTrendItem)),
            .mk "summary" (.obj
              [.mk "overallTrend" (.str t.summary.overallTrend),
               .mk "averageChange" (.num t.summary.averageChange),
               .mk "forecast" (.num t.summary.forecast)]),
            .mk "currency" (.str t.currency),
            .mk "generatedAt" (.str t.generatedAt),
            .mk "settings" (.obj
              [.mk "currency" (.str t.settingsCurrency),
               .mk "dateFormat" (.str t.settingsDateFormat)])]
  | .custom c =>
      .obj [.mk "reportType" (.str "Custom Report"),
            .mk "period" (.str c.period),
            .mk "expenses" (.arr (c.expenses.map jsonOfCustomItem)),
            .mk "revenues" (.arr (c.revenues.map jsonOfCustomItem)),
            .mk "summary" (.obj
              [.mk "totalExpenses" (.num c.summary.totalExpenses),
               .mk "totalRevenues" (.num c.summary.totalRevenues),
               .mk "netIncome" (.num c.summary.netIncome),
               .mk "period" (.str c.summary.period)]),
            .mk "currency" (.str c.currency),
            .mk "generatedAt" (.str c.generatedAt),
            .mk "settings" (.obj
              [.mk "currency" (.str c.settingsCurrency),
               .mk "dateFormat" (.str c.settingsDateFormat)])]

/-- The `exportFormat` union (`'pdf' | 'csv' | 'json' | 'html' | 'markdown'`). -/
inductive ExportFormat : Type where
  | json : ExportFormat
  | csv : ExportFormat
  | html : ExportFormat
  | markdown : ExportFormat
  | pdf : ExportFormat
  deriving Repr, DecidableEq

/-- A file handed to `saveAs`: its name and its byte content. -/
structure SavedFile : Type where
  name : String
  content : String
  deriving Repr, DecidableEq

/-- `exportDataInFormat`.  `date` stands for
`new Date().toISOString().split('T')[0]`, the calendar date at the moment
of export; `pdfResult` is the outcome of the backend
`generateReport` request used only by the `pdf` branch (success saves the
returned blob as `.pdf`, any failure falls back to the pretty-printed JSON
artifact saved as `.json`). -/
def exportDataInFormat (settings : AppSettings) (fmt : ExportFormat)
    (data : ReportPayload) (filename date : String)
    (pdfResult : Except String String) : SavedFile :=
  match fmt with
  | .json =>
      { name := filename ++ "_" ++ date ++ ".json",
        content := jsonStringify (jsonOfPayload data) }
  | .csv =>
      { name := filename ++ "_" ++ date ++ ".csv",
        content := convertToCSV data }
  | .html =>
      { name := filename ++ "_" ++ date ++ ".html",
        content := convertToHTML settings data }
  | .markdown =>
      { name := filename ++ "_" ++ date ++ ".md",
        content := convertToMarkdown settings data }
  | .pdf =>
      match pdfResult with
      | .ok pdfBlob => { name := filename ++ "_" ++ date ++ ".pdf", content := pdfBlob }
      | .error _ =>
          { name := filename ++ "_" ++ date ++ ".json",
            content := jsonStringify (jsonOfPayload data) }

/-- `reportName.replace(/\s+/g, '_')`: each maximal whitespace run becomes a
single underscore. -/
def collapseWsAux : List Char → Bool → List Char
  | [], _ => []
  | c :: cs, inRun =>
      if c.isWhitespace then
        if inRun then collapseWsAux cs true else '_' :: collapseWsAux cs true
      else c :: collapseWsAux cs false

def replaceWsWithUnderscore (s : String) : String :=
  String.mk (collapseWsAux s.data false)

/-- `getExportFilename` (`app.ts` lines 946-950): look up the selected
report's display name (default `Report`), collapse whitespace to
underscores, and append the export-time date and the format tag. -/
def getExportFilename (reportTypes : List (String × String))
    (selectedReport : String) (exportFormat : String) (date : String) :
    String :=
  let reportName :=
    (((reportTypes.find? (fun r => r.1 = selectedReport)).map
      (fun r => r.2)).getD "Report")
  replaceWsWithUnderscore reportName ++ "_" ++ date ++ "." ++ exportFormat

/-! ## CSV re-parsing (the reader's view of a produced row) -/

/-- Split one CSV line into fields: a double quote toggles quoted mode, a
comma outside quotes separates fields. -/
def csvFieldsAux : List Char → Bool → List Char → List String
  | [], _, acc => [String.mk acc.reverse]
  | c :: cs, inQ, acc =>
      if c = '"' then csvFieldsAux cs (!inQ) acc
      else if c = ',' ∧ inQ = false then
        String.mk acc.reverse :: csvFieldsAux cs inQ []
      else csvFieldsAux cs inQ (c :: acc)

def csvFields (s : String) : List String := csvFieldsAux s.data false []

/-- Number of newline characters in a string (its data-row count for a
newline-terminated CSV). -/
def countNL (s : String) : Nat := s.data.count '\n'

/-! ## Shared sample data for concrete instantiations -/

def sampleCustomReport : CustomReport :=
  { period := "2024-01-01 to 2024-01-31",
    expenses := [⟨"2024-01-01", "Food", "lunch", 12⟩,
                 ⟨"2024-01-02", "Rent", "january", 800⟩],
    revenues := [⟨"2024-01-03", "Salary", "payday", 3000⟩],
    summary := ⟨812, 3000, 2188, "2024-01-01 to 2024-01-31"⟩,
    currency := "USD", generatedAt := "2024-02-01T10:00:00.000Z",
    settingsCurrency := "USD", settingsDateFormat := "MM/DD/YYYY" }

def samplePayload : ReportPayload := .custom sampleCustomReport

/-! # Claims -/

/-- Helper: every output of `normalizeTransactionType` is one of the two
enumerated transaction types. -/
theorem normalizeTransactionType_cases (type? : Option String) :
    normalizeTransactionType type? = "expense" ∨
      normalizeTransactionType type? = "revenue" := by
  match type? with
  | none => left; rfl
  | some t =>
    by_cases h0 : t = ""
    · simp [normalizeTransactionType, h0]
    · simp only [normalizeTransactionType, h0, if_false]
      split
      · next h => exact h
      · left; rfl

/-- C1: the client's normalization rebuilds every backend transaction record
with explicit defaults — a missing or non-numeric amount becomes 0, a
missing category becomes `Uncategorized`, a missing type becomes `expense`
— and every normalized transaction's type is `expense` or `revenue`. -/
theorem C1_normalization_defaults (data : Option (List RawTransaction))
    (now : String) (item : RawTransaction) :
    (∀ t ∈ mapTransactions data now,
        t.type = "expense" ∨ t.type = "revenue") ∧
    (item.amount = none → (mapTransaction now item).amount = 0) ∧
    ((item.category = none ∨ item.category = some "") →
        (mapTransaction now item).category = "Uncategorized") ∧
    ((item.type = none ∨ item.type = some "") →
        (mapTransaction now item).type = "expense") := by
  refine ⟨?_, ?_, ?_, ?_⟩
  · intro t ht
    match data with
    | none => simp [mapTransactions] at ht
    | some items =>
      simp only [mapTransactions, List.mem_map] at ht
      obtain ⟨r, _, rfl⟩ := ht
      simpa [mapTransaction] using normalizeTransactionType_cases r.type
  · intro h
    simp [mapTransaction, h]
  · rintro (h | h) <;> simp [mapTransaction, strOr, h]
  · rintro (h | h) <;> simp [mapTransaction, normalizeTransactionType, h]

/-- C1 witness: a fully-missing record maps to amount 0, category
`Uncategorized`, type `expense`. -/
theorem C1_normalization_defaults_witness :
    (mapTransaction "2026-10-11" ⟨none, none, none, none, none, none, none⟩).amount = 0 ∧
    (mapTransaction "2026-10-11" ⟨none, none, none, none, none, none, none⟩).category =
      "Uncategorized" ∧
    (mapTransaction "2026-10-11" ⟨none, none, none, none, none, none, none⟩).type =
      "expense" :=
  ⟨(C1_normalization_defaults none "2026-10-11" _).2.1 rfl,
   (C1_normalization_defaults none "2026-10-11" _).2.2.1 (Or.inl rfl),
   (C1_normalization_defaults none "2026-10-11" _).2.2.2 (Or.inl rfl)⟩

/-- C2: when the selected format is `pdf` and the backend report request
fails, the engine saves a `.json` file whose content is the pretty-printed
JSON of the payload — identical to a direct JSON export's content — and
that content is a non-empty JSON object, never an empty or truncated file. -/
theorem C2_pdf_fallback_saves_json (settings : AppSettings)
    (data : ReportPayload) (filename date e : String) :
    exportDataInFormat settings .pdf data filename date (.error e) =
      { name := filename ++ "_" ++ date ++ ".json",
        content := jsonStringify (jsonOfPayload data) } ∧
    (exportDataInFormat settings .pdf data filename date (.error e)).content =
      (exportDataInFormat settings .json data filename date (.error e)).content ∧
    ∃ rest,
      (exportDataInFormat settings .pdf data filename date (.error e)).content =
        "\x7b\n" ++ rest := by
  refine ⟨rfl, rfl, ?_⟩
  cases data with
  | trend t =>
      simp only [exportDataInFormat, jsonStringify, jsonOfPayload, renderJson,
        String.append_assoc]
      exact ⟨_, rfl⟩
  | custom c =>
      simp only [exportDataInFormat, jsonStringify, jsonOfPayload, renderJson,
        String.append_assoc]
      exact ⟨_, rfl⟩

/-- Newline counting distributes over string append. -/
theorem countNL_append (a b : String) :
    countNL (a ++ b) = countNL a + countNL b := by
  simp [countNL, String.data_append, List.count_append]

/-- A custom-report item whose referenced fields (and the rendering of its
amount) contain no newline character, so that its CSV row is one line. -/
def customItemLineSafe (i : CustomItem) : Prop :=
  countNL i.date = 0 ∧ countNL i.category = 0 ∧ countNL i.description = 0 ∧
    countNL (jsNumToString i.amount) = 0

instance (i : CustomItem) : Decidable (customItemLineSafe i) := by
  unfold customItemLineSafe; infer_instance

/-- A line-safe item's CSV row contains exactly one newline: its
terminator. -/
theorem countNL_customCsvRow (label currency : String) (i : CustomItem)
    (hl : countNL label = 0) (hc : countNL currency = 0)
    (hi : customItemLineSafe i) :
    countNL (customCsvRow label currency i) = 1 := by
  obtain ⟨h1, h2, h3, h4⟩ := hi
  simp only [customCsvRow, countNL_append, hl, hc, h1, h2, h3, h4]
  decide

/-- C3: for a custom report with exactly 2 expense items and 1 revenue item
(whose fields are newline-free), `convertToCSV` is the fixed six-column
header followed by the two expense rows then the revenue row, and the output
has exactly 4 lines; a trend report starts with the five-column trend
header. -/
theorem C3_custom_csv_line_count (e1 e2 r1 : CustomItem) (cSum : CustomSummary)
    (per cur gen sc sdf : String) (t : TrendReport)
    (hc : countNL cur = 0) (h1 : customItemLineSafe e1)
    (h2 : customItemLineSafe e2) (h3 : customItemLineSafe r1) :
    (convertToCSV (.custom ⟨per, [e1, e2], [r1], cSum, cur, gen, sc, sdf⟩) =
        "Type,Date,Category,Description,Amount,Currency\n" ++
          (customCsvRow "Expense" cur e1 ++
            (customCsvRow "Expense" cur e2 ++ customCsvRow "Revenue" cur r1))) ∧
    countNL (convertToCSV
        (.custom ⟨per, [e1, e2], [r1], cSum, cur, gen, sc, sdf⟩)) = 4 ∧
    (∃ rest, convertToCSV (.trend t) =
        "Period,Amount,Change (%),Trend,Currency\n" ++ rest) := by
  have hshape :
      convertToCSV (.custom ⟨per, [e1, e2], [r1], cSum, cur, gen, sc, sdf⟩) =
        "Type,Date,Category,Description,Amount,Currency\n" ++
          (customCsvRow "Expense" cur e1 ++
            (customCsvRow "Expense" cur e2 ++ customCsvRow "Revenue" cur r1)) := by
    simp [convertToCSV, String.join, String.append_assoc]
  refine ⟨hshape, ?_, ⟨_, rfl⟩⟩
  rw [hshape]
  simp only [countNL_append,
    countNL_customCsvRow "Expense" cur e1 (by decide) hc h1,
    countNL_customCsvRow "Expense" cur e2 (by decide) hc h2,
    countNL_customCsvRow "Revenue" cur r1 (by decide) hc h3]
  decide

/-- C3 witness: the sample custom report (2 expenses, 1 revenue) exports to
exactly 4 CSV lines. -/
theorem C3_custom_csv_line_count_witness :
    countNL (convertToCSV samplePayload) = 4 :=
  (C3_custom_csv_line_count ⟨"2024-01-01", "Food", "lunch", 12⟩
      ⟨"2024-01-02", "Rent", "january", 800⟩ ⟨"2024-01-03", "Salary", "payday", 3000⟩
      ⟨812, 3000, 2188, "2024-01-01 to 2024-01-31"⟩
      "2024-01-01 to 2024-01-31" "USD" "2024-02-01T10:00:00.000Z" "USD" "MM/DD/YYYY"
      ⟨"m", [], ⟨"up", 0, 0⟩, "USD", "g", "USD", "MM/DD/YYYY"⟩
      (by decide) (by decide) (by decide) (by decide)).2.1

/-- C4: with alerts enabled and a positive monthly budget, the monthly
check yields the over-budget danger banner exactly when spend reaches the
budget, the near-budget warning banner exactly when spend is below the
budget but at least `alertThreshold`% of it, and no banner otherwise. -/
theorem C4_budget_alert_classification (bs : BudgetSettings)
    (transactions : List Transaction) (inMonth : String → Bool)
    (hpos : 0 < bs.monthlyBudget) :
    (checkBudgetAfterTransaction true bs transactions inMonth =
        some .danger ↔
      bs.monthlyBudget ≤ monthlyExpenseTotal transactions inMonth) ∧
    (checkBudgetAfterTransaction true bs transactions inMonth =
        some .warning ↔
      monthlyExpenseTotal transactions inMonth < bs.monthlyBudget ∧
        bs.alertThreshold / 100 * bs.monthlyBudget ≤
          monthlyExpenseTotal transactions inMonth) ∧
    (checkBudgetAfterTransaction true bs transactions inMonth = none ↔
      monthlyExpenseTotal transactions inMonth < bs.monthlyBudget ∧
        monthlyExpenseTotal transactions inMonth <
          bs.alertThreshold / 100 * bs.monthlyBudget) := by
  set spend := monthlyExpenseTotal transactions inMonth with hspend
  have key : (bs.alertThreshold ≤ spend / bs.monthlyBudget * 100) ↔
      bs.alertThreshold / 100 * bs.monthlyBudget ≤ spend := by
    rw [div_mul_eq_mul_div, le_div_iff₀ hpos]
    constructor <;> intro h <;> linarith
  have hce : checkBudgetAfterTransaction true bs transactions inMonth =
      (if bs.monthlyBudget ≤ spend then some .danger
       else if bs.alertThreshold ≤ spend / bs.monthlyBudget * 100 then
         some .warning
       else none) := by
    simp [checkBudgetAfterTransaction, hspend]
  rw [hce]
  by_cases h1 : bs.monthlyBudget ≤ spend
  · rw [if_pos h1]
    exact ⟨iff_of_true rfl h1,
      iff_of_false (by simp) (fun h => absurd h1 (not_le.mpr h.1)),
      iff_of_false (by simp) (fun h => absurd h1 (not_le.mpr h.1))⟩
  · rw [if_neg h1]
    by_cases h2 : bs.alertThreshold ≤ spend / bs.monthlyBudget * 100
    · rw [if_pos h2]
      exact ⟨iff_of_false (by simp) h1,
        iff_of_true rfl ⟨not_le.mp h1, key.mp h2⟩,
        iff_of_false (by simp) (fun h => absurd (key.mp h2) (not_le.mpr h.2))⟩
    · rw [if_neg h2]
      have hkey : ¬(bs.alertThreshold / 100 * bs.monthlyBudget ≤ spend) :=
        fun hge => h2 (key.mpr hge)
      exact ⟨iff_of_false (by simp) h1,
        iff_of_false (by simp) (fun h => hkey h.2),
        iff_of_true rfl ⟨not_le.mp h1, not_le.mp hkey⟩⟩

/-- C4 witness: monthly budget 3000, threshold 80%: a month spend of 2500
(83.3%) raises the warning banner, a spend of 3000 raises the danger
banner. -/
theorem C4_budget_alert_classification_witness :
    checkBudgetAfterTransaction true ⟨3000, true, 80, 750, []⟩
        [⟨"1", 2500, "expense", "Food", "", "2026-10-05", "2026-10-05"⟩]
        (fun _ => true) = some .warning ∧
    checkBudgetAfterTransaction true ⟨3000, true, 80, 750, []⟩
        [⟨"1", 3000, "expense", "Food", "", "2026-10-05", "2026-10-05"⟩]
        (fun _ => true) = some .danger := by
  have h25 : monthlyExpenseTotal
      [⟨"1", 2500, "expense", "Food", "", "2026-10-05", "2026-10-05"⟩]
      (fun _ => true) = 2500 := by simp [monthlyExpenseTotal]
  have h30 : monthlyExpenseTotal
      [⟨"1", 3000, "expense", "Food", "", "2026-10-05", "2026-10-05"⟩]
      (fun _ => true) = 3000 := by simp [monthlyExpenseTotal]
  constructor
  · exact ((C4_budget_alert_classification ⟨3000, true, 80, 750, []⟩
      [⟨"1", 2500, "expense", "Food", "", "2026-10-05", "2026-10-05"⟩]
      (fun _ => true) (by norm_num)).2.1).mpr (by rw [h25]; norm_num)
  · exact ((C4_budget_alert_classification ⟨3000, true, 80, 750, []⟩
      [⟨"1", 3000, "expense", "Food", "", "2026-10-05", "2026-10-05"⟩]
      (fun _ => true) (by norm_num)).1).mpr (by rw [h30])

/-- C5: for every non-PDF export format (json, csv, html, markdown), the
artifact content produced from a fully-assembled payload is byte-identical
across conversions — the converters are deterministic functions of the
payload and the settings, with no dependence on the export-time clock
(which enters only the filename). -/
theorem C5_export_content_deterministic (settings : AppSettings)
    (data : ReportPayload) (filename date₁ date₂ : String)
    (pdfResult : Except String String) (fmt : ExportFormat)
    (h : fmt ≠ .pdf) :
    (exportDataInFormat settings fmt data filename date₁ pdfResult).content =
      (exportDataInFormat settings fmt data filename date₂ pdfResult).content := by
  cases fmt
  case json => rfl
  case csv => rfl
  case html => rfl
  case markdown => rfl
  case pdf => exact absurd rfl h

/-- C5 witness: two CSV conversions of the sample payload on different
days give the same bytes. -/
theorem C5_export_content_deterministic_witness :
    (exportDataInFormat defaultAppSettings .csv samplePayload "Custom_Report"
        "2026-10-11" (.error "offline")).content =
      (exportDataInFormat defaultAppSettings .csv samplePayload "Custom_Report"
        "2026-12-31" (.error "offline")).content :=
  C5_export_content_deterministic defaultAppSettings samplePayload
    "Custom_Report" "2026-10-11" "2026-12-31" (.error "offline") .csv
    (by decide)

/-- C6: `SettingsService.formatCurrency` is total on every well-formed
currency code — which covers every code the settings screen can configure —
and on missing amounts (formatted as 0): a known code uses its mapped
locale (USD→en-US, EUR→de-DE), an unknown code falls back to the `en-US`
default locale and default formatting instead of raising an error. -/
theorem C6_formatCurrency_never_throws (base : AppSettings)
    (currency : String) (amount : Option ℚ)
    (h : isWellFormedCurrencyCode currency = true) :
    (∃ s, formatCurrency { base with currency := currency } amount = some s) ∧
    formatCurrency { base with currency := currency } amount =
      some (intlCurrencyRender (localeForCurrency currency) currency
        (amount.getD 0)) ∧
    formatCurrency { base with currency := currency } none =
      formatCurrency { base with currency := currency } (some 0) ∧
    localeForCurrency "USD" = "en-US" ∧
    localeForCurrency "EUR" = "de-DE" ∧
    (currencyLocales.lookup currency = none →
      localeForCurrency currency = "en-US") ∧
    (∀ c ∈ settingsCurrencies, isWellFormedCurrencyCode c = true) := by
  refine ⟨⟨intlCurrencyRender (localeForCurrency currency) currency
      (amount.getD 0), ?_⟩, ?_, rfl, by decide, by decide, ?_, by decide⟩
  · simp [formatCurrency, intlNumberFormat, h]
  · simp [formatCurrency, intlNumberFormat, h]
  · intro hnone
    simp [localeForCurrency, hnone]

/-- C6 witness: the unmapped (but well-formed) code TND with a missing
amount formats via the en-US fallback locale without an error. -/
theorem C6_formatCurrency_never_throws_witness :
    formatCurrency { defaultAppSettings with currency := "TND" } none =
      some (intlCurrencyRender "en-US" "TND" 0) :=
  (C6_formatCurrency_never_throws defaultAppSettings "TND" none
    (by decide)).2.1

/-- C7: with no resolved user identifier, every read method resolves
successfully with its empty or default result, while every write method
rejects with `User not authenticated`, whatever the backend would have
answered. -/
theorem C7_no_user_reads_soft_writes_loud (userId : Option String)
    (h : userIdFalsy userId = true) (now timeFrame : String)
    (respL : Except String (Option (List RawTransaction)))
    (respS : Except String TransactionSummary)
    (respC : Except String (List CategorySummary))
    (respStats : Except String CategoryStatsResponse)
    (respT : Except String Transaction) (respU : Except String Unit) :
    getTransactions userId respL now = .ok [] ∧
    getTransactionSummary userId timeFrame respS =
      .ok (getEmptySummary timeFrame) ∧
    getCategorySummary userId respC = .ok [] ∧
    getCategoryStats userId timeFrame respStats =
      .ok (getEmptyCategoryStats timeFrame) ∧
    getRecentTransactions userId respL now = .ok [] ∧
    getExpenses userId respL now = .ok [] ∧
    getRevenues userId respL now = .ok [] ∧
    addTransaction userId respT = .error "User not authenticated" ∧
    updateTransaction userId respT = .error "User not authenticated" ∧
    deleteTransaction userId respU = .error "User not authenticated" := by
  refine ⟨?_, ?_, ?_, ?_, ?_, ?_, ?_, ?_, ?_, ?_⟩ <;>
    simp [getTransactions, getTransactionSummary, getCategorySummary,
      getCategoryStats, getRecentTransactions, getExpenses, getRevenues,
      addTransaction, updateTransaction, deleteTransaction, h]

/-- C7 witness: with an absent user id, reads resolve empty and a write
rejects. -/
theorem C7_no_user_reads_soft_writes_loud_witness :
    getTransactions none (.ok (some [])) "2026-10-11" = .ok [] ∧
    addTransaction none (.error "network down") =
      .error "User not authenticated" :=
  ⟨(C7_no_user_reads_soft_writes_loud none rfl "2026-10-11" "month"
      (.ok (some [])) (.error "x") (.error "x") (.error "x")
      (.error "network down") (.error "x")).1,
   (C7_no_user_reads_soft_writes_loud none rfl "2026-10-11" "month"
      (.ok (some [])) (.error "x") (.error "x") (.error "x")
      (.error "network down") (.error "x")).2.2.2.2.2.2.2.1⟩

/-- C8: every saved export is named `filename_date.ext` where `date` is the
export-moment calendar date (the name never depends on the payload, hence
not on the report's period) and the extension matches the chosen format —
`json`, `csv`, `html`, `md` for markdown, and `pdf` when the backend PDF
request succeeds; `getExportFilename` follows the same
`Name_date.format` pattern. -/
theorem C8_export_filename_convention (settings : AppSettings)
    (fmt : ExportFormat) (data data₂ : ReportPayload) (filename date : String)
    (pdfResult : Except String String) (reportTypes : List (String × String))
    (selectedReport exportFormat : String) :
    (∃ ext ∈ (["json", "csv", "html", "md", "pdf"] : List String),
        (exportDataInFormat settings fmt data filename date pdfResult).name =
          filename ++ "_" ++ date ++ "." ++ ext) ∧
    (fmt = .json →
      (exportDataInFormat settings fmt data filename date pdfResult).name =
        filename ++ "_" ++ date ++ ".json") ∧
    (fmt = .csv →
      (exportDataInFormat settings fmt data filename date pdfResult).name =
        filename ++ "_" ++ date ++ ".csv") ∧
    (fmt = .html →
      (exportDataInFormat settings fmt data filename date pdfResult).name =
        filename ++ "_" ++ date ++ ".html") ∧
    (fmt = .markdown →
      (exportDataInFormat settings fmt data filename date pdfResult).name =
        filename ++ "_" ++ date ++ ".md") ∧
    (∀ blob, fmt = .pdf → pdfResult = .ok blob →
      (exportDataInFormat settings fmt data filename date pdfResult).name =
        filename ++ "_" ++ date ++ ".pdf") ∧
    ((exportDataInFormat settings fmt data filename date pdfResult).name =
      (exportDataInFormat settings fmt data₂ filename date pdfResult).name) ∧
    (∃ nm, getExportFilename reportTypes selectedReport exportFormat date =
      nm ++ "_" ++ date ++ "." ++ exportFormat) := by
  cases fmt
  case json =>
    have hdot : ("." ++ "json" : String) = ".json" := by decide
    refine ⟨⟨"json", by decide, ?_⟩, fun _ => rfl, ?_, ?_, ?_, ?_, rfl,
      ⟨_, rfl⟩⟩
    · simp [exportDataInFormat, String.append_assoc, hdot]
    · intro h; cases h
    · intro h; cases h
    · intro h; cases h
    · intro b h _; cases h
  case csv =>
    have hdot : ("." ++ "csv" : String) = ".csv" := by decide
    refine ⟨⟨"csv", by decide, ?_⟩, ?_, fun _ => rfl, ?_, ?_, ?_, rfl,
      ⟨_, rfl⟩⟩
    · simp [exportDataInFormat, String.append_assoc, hdot]
    · intro h; cases h
    · intro h; cases h
    · intro h; cases h
    · intro b h _; cases h
  case html =>
    have hdot : ("." ++ "html" : String) = ".html" := by decide
    refine ⟨⟨"html", by decide, ?_⟩, ?_, ?_, fun _ => rfl, ?_, ?_, rfl,
      ⟨_, rfl⟩⟩
    · simp [exportDataInFormat, String.append_assoc, hdot]
    · intro h; cases h
    · intro h; cases h
    · intro h; cases h
    · intro b h _; cases h
  case markdown =>
    have hdot : ("." ++ "md" : String) = ".md" := by decide
    refine ⟨⟨"md", by decide, ?_⟩, ?_, ?_, ?_, fun _ => rfl, ?_, rfl,
      ⟨_, rfl⟩⟩
    · simp [exportDataInFormat, String.append_assoc, hdot]
    · intro h; cases h
    · intro h; cases h
    · intro h; cases h
    · intro b h _; cases h
  case pdf =>
    cases pdfResult
    case ok blob =>
      have hdot : ("." ++ "pdf" : String) = ".pdf" := by decide
      refine ⟨⟨"pdf", by decide, ?_⟩, ?_, ?_, ?_, ?_, ?_, rfl, ⟨_, rfl⟩⟩
      · simp [exportDataInFormat, String.append_assoc, hdot]
      · intro h; cases h
      · intro h; cases h
      · intro h; cases h
      · intro h; cases h
      · intro b _ hb; cases hb; rfl
    case error e =>
      have hdot : ("." ++ "json" : String) = ".json" := by decide
      refine ⟨⟨"json", by decide, ?_⟩, ?_, ?_, ?_, ?_, ?_, rfl, ⟨_, rfl⟩⟩
      · simp [exportDataInFormat, String.append_assoc, hdot]
      · intro h; cases h
      · intro h; cases h
      · intro h; cases h
      · intro h; cases h
      · intro b _ hb; cases hb

/-- C8 witness: a markdown export on 2026-10-11 is saved as
`Custom_Report_2026-10-11.md`. -/
theorem C8_export_filename_convention_witness :
    (exportDataInFormat defaultAppSettings .markdown samplePayload
        "Custom_Report" "2026-10-11" (.error "x")).name =
      "Custom_Report" ++ "_" ++ "2026-10-11" ++ ".md" :=
  (C8_export_filename_convention defaultAppSettings .markdown samplePayload
    samplePayload "Custom_Report" "2026-10-11" (.error "x") []
    "custom" "markdown").2.2.2.2.1 rfl

/-- A custom-report item whose category contains a comma. -/
def commaItem : CustomItem := ⟨"2024-01-01", "Food,Drink", "dinner", 5⟩

/-- A custom report with the comma-carrying item as its only data point. -/
def commaPayload : ReportPayload := .custom
  { period := "p", expenses := [commaItem], revenues := [],
    summary := ⟨5, 0, -5, "p"⟩, currency := "USD", generatedAt := "g",
    settingsCurrency := "USD", settingsDateFormat := "MM/DD/YYYY" }

/-- C9: `convertToCSV` wraps only the description in quotes and performs no
other escaping, so for an item whose category contains a comma
(`Food,Drink`) the emitted data row parses into 7 fields, not the 6 columns
of the documented header — the comma shifts the column structure. -/
theorem C9_unescaped_comma_corrupts_columns :
    convertToCSV commaPayload =
      "Type,Date,Category,Description,Amount,Currency\n" ++
        customCsvRow "Expense" "USD" commaItem ∧
    customCsvRow "Expense" "USD" commaItem =
      "Expense,2024-01-01,Food,Drink,\"dinner\",5,USD\n" ∧
    (csvFields "Type,Date,Category,Description,Amount,Currency").length = 6 ∧
    (csvFields "Expense,2024-01-01,Food,Drink,\"dinner\",5,USD").length = 7 :=
  ⟨rfl, rfl, rfl, rfl⟩

/-- Helper: one `updateBudgetCategorySpent` call keeps all spent amounts
non-negative, given a non-negative transaction amount. -/
theorem updateBudgetCategorySpent_spent_nonneg (cats : List BudgetCategory)
    (t : Transaction) (isDelete : Bool)
    (hcats : ∀ c ∈ cats, 0 ≤ c.spent) (ht : 0 ≤ t.amount) :
    ∀ c ∈ updateBudgetCategorySpent cats t isDelete, 0 ≤ c.spent := by
  intro c hc
  unfold updateBudgetCategorySpent at hc
  split at hc
  · exact hcats c hc
  · split at hc
    · exact hcats c hc
    · split at hc
      · exact hcats c hc
      · next category hcat =>
          rcases List.mem_or_eq_of_mem_set hc with hmem | rfl
          · exact hcats c hmem
          · dsimp only
            split
            · exact le_max_left 0 _
            · exact add_nonneg (hcats category (List.get?_mem hcat)) ht

/-- C10: starting from non-negative spent values, any sequence of
transaction additions and deletions with non-negative amounts keeps every
budget category's spent amount non-negative — deletion clamps at 0, and
addition only increases spent. -/
theorem C10_spent_never_negative (cats : List BudgetCategory)
    (events : List (Transaction × Bool))
    (hcats : ∀ c ∈ cats, 0 ≤ c.spent)
    (hev : ∀ e ∈ events, 0 ≤ e.1.amount) :
    ∀ c ∈ applyBudgetEvents cats events, 0 ≤ c.spent := by
  revert hev hcats
  induction events generalizing cats with
  | nil => intro hcats _; simpa [applyBudgetEvents] using hcats
  | cons e es ih =>
      intro hcats hev
      have hnext := updateBudgetCategorySpent_spent_nonneg cats e.1 e.2 hcats
        (hev e (List.mem_cons_self e es))
      have hev' : ∀ x ∈ es, 0 ≤ x.1.amount :=
        fun x hx => hev x (List.mem_cons_of_mem e hx)
      exact ih (updateBudgetCategorySpent cats e.1 e.2) hnext hev'

/-- C10 witness: deleting a 300 expense from a category with spent 100
clamps its spent to 0, not -200. -/
theorem C10_spent_never_negative_witness :
    0 ≤ (BudgetCategory.mk "Food" 500 0).spent := by
  have hres : applyBudgetEvents [⟨"Food", 500, 100⟩]
      [(⟨"1", 300, "expense", "Food", "", "d", "d"⟩, true)] =
      [⟨"Food", 500, 0⟩] := by
    simp [applyBudgetEvents, updateBudgetCategorySpent, List.findIdx?]
    norm_num
  exact C10_spent_never_negative [⟨"Food", 500, 100⟩]
    [(⟨"1", 300, "expense", "Food", "", "d", "d"⟩, true)]
    (by rintro c hc; simp only [List.mem_singleton] at hc; subst hc; norm_num)
    (by rintro e he; simp only [List.mem_singleton] at he; subst he; norm_num)
    ⟨"Food", 500, 0⟩ (by rw [hres]; exact List.mem_singleton_self _)

end Exptrack
